import Mathlib

/-!
Verification of the drip reverse-tunnel core against its source.

The definitions below are shallow embeddings of the Go source files:
frame codec (`WriteFrame` / `ReadFrame` / `Frame.Release`), buffer pool
(`BufferPool.Put`), tunnel registry (`Manager.Register`,
`Manager.CleanupStale`, `generateUniqueSubdomain`, `ValidateSubdomain`,
`IsReserved`), id generation (`GenerateID`), the two batching frame
writers (`FrameWriter.WriteFrame`, `FrameWriter.flushBatchLocked`) and
the response demultiplexer (`ResponseHandler.SendResponse`).
Machine integers are modelled as `Nat` / `Int`; byte slices as
`List Nat`; fallible operations return `Option` / `Except`;
the random sources and the sink outcomes are oracle parameters.
-/

namespace Drip

/-! ### Frame codec constants (frame.go) -/

def maxFrameSize : Nat := 10 * 1024 * 1024

def sizeSmall : Nat := 4 * 1024

def sizeMedium : Nat := 32 * 1024

def sizeLarge : Nat := 256 * 1024

/-- A decoded frame: type byte, payload slice (`none` models a nil Go
slice) and the optional pool-buffer handle, recorded by its capacity. -/
structure GoFrame where
  frameType : Nat
  payload : Option (List Nat)
  poolBuffer : Option Nat
deriving DecidableEq, Repr

/-- The payload bytes of a frame; a nil Go slice reads as empty. -/
def payloadBytes (f : GoFrame) : List Nat :=
  f.payload.getD []

/-- Model of `binary.BigEndian.PutUint32`: the 4 big-endian bytes of `n` (as uint32). -/
def be32 (n : Nat) : List Nat :=
  [n / 16777216 % 256, n / 65536 % 256, n / 256 % 256, n % 256]

def oversizeMsg : String := "payload too large"

/-- Model of `WriteFrame`: length check first, then emit 4-byte big-endian length,
1 type byte, payload verbatim.  The second component is every byte the
sink receives; on error nothing is emitted. -/
def writeFrame (t : Nat) (p : List Nat) : Option String × List Nat :=
  if p.length > maxFrameSize then (some oversizeMsg, [])
  else (none, be32 p.length ++ t % 256 :: p)

/-- Model of `BufferPool.Get` size-class selection: the capacity of the pooled
buffer handed out for a request of `n` bytes. -/
def bucketFor (n : Nat) : Nat :=
  if n ≤ sizeSmall then sizeSmall
  else if n ≤ sizeMedium then sizeMedium
  else sizeLarge

/-- Outcome of one `ReadFrame` call: the decoded frame (if any), how many
bytes were consumed from the stream, whether a pooled buffer was drawn,
and whether a fresh payload buffer was allocated. -/
structure DecodeResult where
  frame : Option GoFrame
  consumed : Nat
  poolDrawn : Bool
  freshAlloc : Bool
deriving DecidableEq, Repr

/-- Model of `ReadFrame` over a byte stream: read 5 header bytes via `io.ReadFull`
(a short stream is drained and fails), parse the big-endian length,
reject > 10 MiB before touching any payload buffer, then read exactly
`payloadLen` payload bytes (pooled when `payloadLen ≤ SizeLarge`,
freshly allocated otherwise). -/
def readFrame : List Nat → DecodeResult
  | a :: b :: c :: d :: t :: rest =>
      let payloadLen := ((a * 256 + b) * 256 + c) * 256 + d
      if payloadLen > maxFrameSize then ⟨none, 5, false, false⟩
      else if payloadLen = 0 then ⟨some ⟨t, none, none⟩, 5, false, false⟩
      else if sizeLarge < payloadLen then
        if rest.length < payloadLen then ⟨none, 5 + rest.length, false, true⟩
        else ⟨some ⟨t, some (rest.take payloadLen), none⟩, 5 + payloadLen, false, true⟩
      else
        if rest.length < payloadLen then ⟨none, 5 + rest.length, true, false⟩
        else ⟨some ⟨t, some (rest.take payloadLen), some (bucketFor payloadLen)⟩,
              5 + payloadLen, true, false⟩
  | s => ⟨none, s.length, false, false⟩

/-- The payload length declared in a stream's 4-byte header. -/
def declaredLen : List Nat → Nat
  | a :: b :: c :: d :: _ => ((a * 256 + b) * 256 + c) * 256 + d
  | _ => 0

/-! ### Buffer pool (buffer_pool.go) -/

/-- The pool's three size classes, by number of buffers currently held. -/
structure Pool where
  small : Nat
  medium : Nat
  large : Nat
deriving DecidableEq, Repr

/-- Model of `BufferPool.Put`: a nil handle is ignored; a buffer is filed under the
class its capacity matches exactly, anything else is dropped. -/
def poolPut (p : Pool) (buf : Option Nat) : Pool :=
  match buf with
  | none => p
  | some c =>
      if c = sizeSmall then { p with small := p.small + 1 }
      else if c = sizeMedium then { p with medium := p.medium + 1 }
      else if c = sizeLarge then { p with large := p.large + 1 }
      else p

def poolTotal (p : Pool) : Nat :=
  p.small + p.medium + p.large

/-- Model of `Frame.Release`: if a pool handle is present, return the buffer to the
pool and nil out both the handle and the payload; otherwise do nothing. -/
def GoFrame.release (f : GoFrame) (pool : Pool) : GoFrame × Pool :=
  match f.poolBuffer with
  | some buf => (⟨f.frameType, none, none⟩, poolPut pool (some buf))
  | none => (f, pool)

/-! ### Subdomain validation and reservation (id.go) -/

def isLowerDigit (c : Char) : Bool :=
  ('a' ≤ c && c ≤ 'z') || ('0' ≤ c && c ≤ '9')

def isLDH (c : Char) : Bool :=
  isLowerDigit c || c = '-'

/-- Full match of `[a-z0-9][a-z0-9-]\x7b1,61\x7d[a-z0-9]` anchored at both
ends: first and last characters are lowercase alphanumerics, the 1 to 61
characters between them are letters, digits or hyphens. -/
def subdomainRegexMatch (cs : List Char) : Bool :=
  match cs, cs.getLast? with
  | c :: _, some d =>
      isLowerDigit c && isLowerDigit d && (cs.drop 1).dropLast.all isLDH
        && decide (3 ≤ cs.length) && decide (cs.length ≤ 63)
  | _, _ => false

/-- Model of `ValidateSubdomain`: length 3..63, then the anchored regular expression. -/
def validateSubdomain (s : String) : Bool :=
  if s.data.length < 3 || s.data.length > 63 then false
  else subdomainRegexMatch s.data

def reservedList : List String :=
  ["www", "api", "admin", "app", "mail", "ftp", "blog", "shop",
   "status", "health", "test", "dev", "staging"]

/-- Model of `IsReserved`: membership in the hard-coded reserved set. -/
def isReserved (s : String) : Bool :=
  reservedList.contains s

/-! ### Tunnel registry (manager.go, connection.go) -/

/-- Server-side record for one registered tunnel. -/
structure Conn where
  subdomain : String
  lastActive : Int
  closed : Bool
deriving DecidableEq, Repr

/-- Registry state: the `subdomain -> connection` map and the
used-subdomain set, both modelled as lists looked up by key. -/
structure MState where
  tunnels : List (String × Conn)
  used : List String
deriving DecidableEq, Repr

def lookupTunnel (st : MState) (s : String) : Option Conn :=
  (st.tunnels.find? (fun p => p.1 == s)).map Prod.snd

def isUsed (st : MState) (s : String) : Bool :=
  st.used.contains s

/-- Insert a fresh connection for `s` into both maps
(`m.tunnels[subdomain] = tc; m.used[subdomain] = true`). -/
def bindSubdomain (st : MState) (s : String) (now : Int) : MState :=
  ⟨(s, ⟨s, now, false⟩) :: st.tunnels, s :: st.used⟩

/-- The attempt loop of `generateUniqueSubdomain`: `gen i` is the string
produced by the i-th call to `GenerateSubdomain` (calls 0..9 ask for
length 6); an attempt is accepted if unused and unreserved.  When the
fuel runs out the current call index is 10: the length-8 fallback,
returned without any check. -/
def genLoop (st : MState) (gen : Nat → String) : Nat → Nat → String
  | i, 0 => gen i
  | i, fuel + 1 =>
      let s := gen i
      if !isUsed st s && !isReserved s then s else genLoop st gen (i + 1) fuel

/-- Model of `Manager.generateUniqueSubdomain`: up to 10 length-6 attempts, then
the unchecked length-8 fallback. -/
def generateUniqueSubdomain (st : MState) (gen : Nat → String) : String :=
  genLoop st gen 0 10

inductive RegisterError
  | invalidSubdomain
  | reservedSubdomain
  | subdomainTaken
deriving DecidableEq, Repr

/-- Model of `Manager.Register`: a non-empty requested subdomain is validated,
checked against the reserved set, then against the used set, and any
failure leaves the registry untouched; an empty request draws from
`generateUniqueSubdomain`.  On success the subdomain is bound. -/
def register (st : MState) (custom : String) (gen : Nat → String) (now : Int) :
    Except RegisterError String × MState :=
  if custom ≠ "" then
    if !validateSubdomain custom then (.error .invalidSubdomain, st)
    else if isReserved custom then (.error .reservedSubdomain, st)
    else if isUsed st custom then (.error .subdomainTaken, st)
    else (.ok custom, bindSubdomain st custom now)
  else
    let s := generateUniqueSubdomain st gen
    (.ok s, bindSubdomain st s now)

/-- Model of `Connection.IsAlive`: strictly less than the timeout since `last_active`. -/
def isAlive (now lastActive timeout : Int) : Bool :=
  now - lastActive < timeout

structure CleanupResult where
  state : MState
  removed : List (String × Conn)
  count : Nat
deriving DecidableEq, Repr

/-- Model of `Manager.CleanupStale`: collect every connection that is not alive,
close each one, delete it from both maps, and report how many were
collected. -/
def cleanupStale (st : MState) (now timeout : Int) : CleanupResult :=
  let stale := st.tunnels.filter (fun p => !isAlive now p.2.lastActive timeout)
  let staleNames := stale.map Prod.fst
  { state :=
      { tunnels := st.tunnels.filter (fun p => isAlive now p.2.lastActive timeout),
        used := st.used.filter (fun s => !staleNames.contains s) },
    removed := stale.map (fun p => (p.1, { p.2 with closed := true })),
    count := staleNames.length }

/-! ### Request IDs (id.go) -/

def hexDigit (n : Nat) : Char :=
  "0123456789abcdef".data.getD n '0'

def isHexLowerChar (c : Char) : Bool :=
  ('0' ≤ c && c ≤ '9') || ('a' ≤ c && c ≤ 'f')

/-- Model of `hex.EncodeToString`: two lowercase hex characters per byte,
high nibble first. -/
def hexEncode : List Nat → List Char
  | [] => []
  | b :: bs => hexDigit (b % 256 / 16) :: hexDigit (b % 16) :: hexEncode bs

/-- Model of `GenerateID`: hex-encode 16 random bytes; if the crypto read fails,
fall back to hex-encoding the bytes of `time.Now().String()`. -/
def generateID (randBytes : Option (List Nat)) (timeStr : List Nat) : List Char :=
  match randBytes with
  | some bs => hexEncode bs
  | none => hexEncode timeStr

/-! ### Client-side batching writer (the variant whose submit falls back
to a direct write when the queue is full) -/

structure CWState where
  closed : Bool
  queue : List (Nat × List Nat)
  cap : Nat
  doneClosed : Bool
deriving DecidableEq, Repr

inductive CSubmitOutcome
  | queued
  | closedError
  | direct (res : Option String × List Nat)
deriving DecidableEq, Repr

/-- Client-variant `FrameWriter.WriteFrame`: refuse when closed; enqueue
when the bounded queue has room; report closed when `done` fired;
otherwise (queue full, writer open) serialize the frame straight to the
transport and return that write's result. -/
def clientWriteFrame (w : CWState) (fr : Nat × List Nat) : CWState × CSubmitOutcome :=
  if w.closed then (w, .closedError)
  else if w.queue.length < w.cap then ({ w with queue := w.queue ++ [fr] }, .queued)
  else if w.doneClosed then (w, .closedError)
  else (w, .direct (writeFrame fr.1 fr.2))

/-! ### Server-side batching writer (the variant with error latching;
its submit select has no default branch, so a full queue blocks) -/

structure SWState where
  closed : Bool
  writeErr : Option String
  errOnceUsed : Bool
  callbackSet : Bool
  callbackCalls : Nat
  queue : List (Nat × List Nat)
  cap : Nat
  doneClosed : Bool
deriving DecidableEq, Repr

inductive SSubmitOutcome
  | queued
  | errorResult (msg : String)
  | blocked
deriving DecidableEq, Repr

/-- Server-variant `FrameWriter.WriteFrame`: a closed writer returns the
latched error (or a generic closed error); otherwise enqueue if there is
room; if `done` fired return the latched error; with a full queue and no
closure the select suspends. -/
def serverWriteFrame (w : SWState) (fr : Nat × List Nat) : SWState × SSubmitOutcome :=
  if w.closed then (w, .errorResult (w.writeErr.getD "writer closed"))
  else if w.queue.length < w.cap then ({ w with queue := w.queue ++ [fr] }, .queued)
  else if w.doneClosed then (w, .errorResult (w.writeErr.getD "writer closed"))
  else (w, .blocked)

/-- One sink write inside `flushBatchLocked`: `res` is the outcome the
underlying writer returned for this frame.  On the first error ever seen
(`sync.Once`), latch it, mark the writer closed, and invoke the
registered callback; afterwards errors are ignored. -/
def flushStep (w : SWState) (res : Option String) : SWState :=
  match res with
  | none => w
  | some e =>
      if w.errOnceUsed then w
      else
        { w with
          writeErr := some e
          closed := true
          errOnceUsed := true
          callbackCalls := w.callbackCalls + (if w.callbackSet then 1 else 0) }

/-- Model of `flushBatchLocked` over the per-frame sink outcomes of one batch
(the loop keeps writing every frame even after an error). -/
def flushBatch (w : SWState) (results : List (Option String)) : SWState :=
  results.foldl flushStep w

/-- The first error among a sequence of sink outcomes. -/
def firstSinkError : List (Option String) → Option String
  | [] => none
  | none :: rs => firstSinkError rs
  | some e :: _ => some e

/-! ### Response demultiplexer (response handler) -/

structure RespEntry where
  buffered : Option Nat
  createdAt : Int
deriving DecidableEq, Repr

structure RHState where
  channels : List (String × RespEntry)
deriving DecidableEq, Repr

inductive SendOutcome
  | delivered
  | timedOut
  | droppedUnknown
deriving DecidableEq, Repr

def lookupEntry (st : RHState) (id : String) : Option RespEntry :=
  (st.channels.find? (fun p => p.1 == id)).map Prod.snd

/-- Model of `ResponseHandler.SendResponse`: an unknown request id is dropped with
a warning and nothing else happens; a known entry receives the response
in its one-slot channel, or the send times out if the slot is occupied. -/
def sendResponse (st : RHState) (id : String) (resp : Nat) : RHState × SendOutcome :=
  match st.channels.find? (fun p => p.1 == id) with
  | none => (st, .droppedUnknown)
  | some (_, e) =>
      if e.buffered = none then
        (⟨st.channels.map fun p =>
            if p.1 == id then (p.1, { p.2 with buffered := some resp }) else p⟩,
         .delivered)
      else (st, .timedOut)

/-! ### Frame codec lemmas -/

lemma be32_decode (n : Nat) (h : n < 4294967296) :
    ((n / 16777216 % 256 * 256 + n / 65536 % 256) * 256 + n / 256 % 256) * 256
      + n % 256 = n := by
  omega

lemma writeFrame_bytes (t : Nat) (p : List Nat) (hp : p.length ≤ maxFrameSize) :
    (writeFrame t p).2 =
      p.length / 16777216 % 256 :: p.length / 65536 % 256 ::
        p.length / 256 % 256 :: p.length % 256 :: t % 256 :: p := by
  unfold writeFrame be32
  rw [if_neg (by omega)]
  rfl

/-- Decoding the encoder's output: full characterization of the frame,
the consumed count and the buffer-sourcing flags. -/
lemma readFrame_writeFrame (t : Nat) (p : List Nat) (ht : t < 256)
    (hp : p.length ≤ maxFrameSize) :
    readFrame (writeFrame t p).2 =
      ⟨some ⟨t,
             if p.length = 0 then none else some p,
             if p.length = 0 then none
             else if sizeLarge < p.length then none
             else some (bucketFor p.length)⟩,
       5 + p.length,
       if p.length = 0 then false else if sizeLarge < p.length then false else true,
       if p.length = 0 then false else if sizeLarge < p.length then true else false⟩ := by
  have hlt : p.length < 4294967296 := by
    unfold maxFrameSize at hp; omega
  rw [writeFrame_bytes t p hp]
  simp only [readFrame]
  rw [be32_decode p.length hlt, Nat.mod_eq_of_lt ht]
  rw [if_neg (show ¬ p.length > maxFrameSize by omega)]
  by_cases h0 : p.length = 0
  · rw [if_pos h0]
    simp [h0]
  · rw [if_neg h0]
    by_cases hbig : sizeLarge < p.length
    · rw [if_pos hbig, if_neg (show ¬ p.length < p.length by omega), List.take_length]
      simp [h0, hbig]
    · rw [if_neg hbig, if_neg (show ¬ p.length < p.length by omega), List.take_length]
      simp [h0, hbig]

/-- Claim C1: writing any frame whose payload is at most 10 MiB emits
bytes that decode back to the same type and payload (consuming the whole
encoding); a payload over 10 MiB makes `WriteFrame` fail with the
oversize error and emit no bytes at all. -/
theorem frame_roundtrip_c1 (t : Nat) (p : List Nat) (ht : t < 256) :
    (p.length ≤ maxFrameSize →
      (writeFrame t p).1 = none ∧
      (readFrame (writeFrame t p).2).frame.map GoFrame.frameType = some t ∧
      (readFrame (writeFrame t p).2).frame.map payloadBytes = some p ∧
      (readFrame (writeFrame t p).2).consumed = ((writeFrame t p).2).length) ∧
    (maxFrameSize < p.length → writeFrame t p = (some oversizeMsg, [])) := by
  constructor
  · intro hp
    rw [readFrame_writeFrame t p ht hp, writeFrame_bytes t p hp]
    refine ⟨?_, rfl, ?_, by simp <;> omega⟩
    · unfold writeFrame
      rw [if_neg (by omega)]
    · by_cases h0 : p.length = 0
      · rw [List.length_eq_zero] at h0
        simp [payloadBytes, h0]
      · simp [payloadBytes, h0]
  · intro hp
    unfold writeFrame
    rw [if_pos (by omega)]

/-- Witness for C1 at concrete inputs: a small frame round-trips, and a
payload one byte over the limit is rejected with nothing written. -/
theorem frame_roundtrip_c1_witness :
    (readFrame (writeFrame 3 [1, 2, 3]).2).frame.map payloadBytes = some [1, 2, 3] ∧
    writeFrame 7 (List.replicate 10485761 0) = (some oversizeMsg, []) :=
  ⟨((frame_roundtrip_c1 3 [1, 2, 3] (by decide)).1 (by decide)).2.2.1,
   (frame_roundtrip_c1 7 (List.replicate 10485761 0) (by decide)).2
     (by simp only [List.length_replicate, maxFrameSize]; omega)⟩

/-- Claim C7: the decoder never consumes more bytes than the stream has;
on success it consumes exactly `5 + declared length` and the payload is
exactly the declared slice; a stream shorter than the header fails after
draining it; a header declaring more than 10 MiB fails after exactly the
5 header bytes without drawing a pooled buffer or allocating; and a
stream short of the declared payload fails. -/
theorem frame_decoder_c7 (s : List Nat) :
    (readFrame s).consumed ≤ s.length ∧
    (∀ f, (readFrame s).frame = some f →
      (readFrame s).consumed = 5 + declaredLen s ∧
      payloadBytes f = (s.drop 5).take (declaredLen s)) ∧
    (s.length < 5 → (readFrame s).frame = none ∧ (readFrame s).consumed = s.length) ∧
    (5 ≤ s.length → maxFrameSize < declaredLen s →
      readFrame s = ⟨none, 5, false, false⟩) ∧
    (5 ≤ s.length → declaredLen s ≤ maxFrameSize → s.length < 5 + declaredLen s →
      (readFrame s).frame = none) := by
  match s with
  | [] => exact ⟨by simp [readFrame], by simp [readFrame], by simp [readFrame],
      by intro h; simp at h, by intro h; simp at h⟩
  | [a] => exact ⟨by simp [readFrame], by simp [readFrame], by simp [readFrame],
      by intro h; simp at h, by intro h; simp at h⟩
  | [a, b] => exact ⟨by simp [readFrame], by simp [readFrame], by simp [readFrame],
      by intro h; simp at h, by intro h; simp at h⟩
  | [a, b, c] => exact ⟨by simp [readFrame], by simp [readFrame], by simp [readFrame],
      by intro h; simp at h, by intro h; simp at h⟩
  | [a, b, c, d] => exact ⟨by simp [readFrame], by simp [readFrame], by simp [readFrame],
      by intro h; simp at h, by intro h; simp at h⟩
  | a :: b :: c :: d :: t :: rest =>
    simp only [readFrame, declaredLen]
    set L := ((a * 256 + b) * 256 + c) * 256 + d with hL
    by_cases hover : L > maxFrameSize
    · rw [if_pos hover]
      refine ⟨by simp <;> omega, by simp, by simp <;> omega, fun _ _ => rfl, ?_⟩
      intro _ hc
      omega
    · rw [if_neg hover]
      by_cases h0 : L = 0
      · rw [if_pos h0]
        refine ⟨by simp <;> omega, ?_, by simp <;> omega, by intro _ h; omega, ?_⟩
        · intro f hf
          simp only [Option.some.injEq] at hf
          subst hf
          simp [payloadBytes, h0]
        · intro _ _ hc
          simp at hc
          omega
      · rw [if_neg h0]
        by_cases hbig : sizeLarge < L
        · rw [if_pos hbig]
          by_cases hshort : rest.length < L
          · rw [if_pos hshort]
            refine ⟨by simp <;> omega, by simp, by simp <;> omega,
              by intro _ h; omega, by simp⟩
          · rw [if_neg hshort]
            refine ⟨by simp <;> omega, ?_, by simp <;> omega, by intro _ h; omega, ?_⟩
            · intro f hf
              simp only [Option.some.injEq] at hf
              subst hf
              simp [payloadBytes]
            · intro _ _ hc
              simp at hc
              omega
        · rw [if_neg hbig]
          by_cases hshort : rest.length < L
          · rw [if_pos hshort]
            refine ⟨by simp <;> omega, by simp, by simp <;> omega,
              by intro _ h; omega, by simp⟩
          · rw [if_neg hshort]
            refine ⟨by simp <;> omega, ?_, by simp <;> omega, by intro _ h; omega, ?_⟩
            · intro f hf
              simp only [Option.some.injEq] at hf
              subst hf
              simp [payloadBytes]
            · intro _ _ hc
              simp at hc
              omega

/-- Witness for C7 at concrete streams: a complete 1-byte-payload frame
consumes exactly 6 bytes, and a header declaring 4294967295 bytes is
rejected with only the 5 header bytes consumed and no buffer drawn. -/
theorem frame_decoder_c7_witness :
    (readFrame [0, 0, 0, 1, 5, 9]).consumed = 5 + declaredLen [0, 0, 0, 1, 5, 9] ∧
    readFrame [255, 255, 255, 255, 7] = ⟨none, 5, false, false⟩ :=
  ⟨((frame_decoder_c7 [0, 0, 0, 1, 5, 9]).2.1 ⟨5, some [9], some sizeSmall⟩ (by decide)).1,
   (frame_decoder_c7 [255, 255, 255, 255, 7]).2.2.2.1 (by decide) (by decide)⟩

/-! ### Frame release (C10) -/

/-- A decoded frame whose payload exceeds the largest pool class: the
decoder allocates it fresh, so the frame carries no pool handle. -/
def bigPayload : List Nat := List.replicate (sizeLarge + 1) 1

/-- Claim C10 counterexample: the frame decoded from a frame encoding a
payload of `SizeLarge + 1` bytes has no pool handle, and its first
`Release` leaves the payload in place — it is not nil afterwards,
contradicting the claim that after the first Release every decoded
frame's payload is nil. -/
theorem frame_release_c10_counterexample :
    ¬ ((readFrame (writeFrame 5 bigPayload).2).frame.map
        (fun f => (f.release ⟨0, 0, 0⟩).1.payload) = some none) := by
  have hlen : bigPayload.length = sizeLarge + 1 := by
    simp [bigPayload]
  have h0 : ¬ bigPayload.length = 0 := by
    rw [hlen]; omega
  have hbig : sizeLarge < bigPayload.length := by
    rw [hlen]; omega
  rw [readFrame_writeFrame 5 bigPayload (by decide) (by rw [hlen]; decide)]
  simp only [if_neg h0, if_pos hbig]
  simp [GoFrame.release]

/-- Claim C10 (amended): `Release` returns the pooled buffer at most once
and is idempotent — after the first call the pool handle is nil, a
second call changes nothing (frame, payload and pool all unchanged), and
the pool grows by at most one buffer; when the frame held a pool handle,
the first call also nils the payload.  A decoded frame without a pool
handle keeps its payload. -/
theorem frame_release_c10 (f : GoFrame) (pool : Pool) :
    ((f.release pool).1.release (f.release pool).2 = f.release pool) ∧
    (f.release pool).1.poolBuffer = none ∧
    poolTotal (f.release pool).2 ≤ poolTotal pool + 1 ∧
    (f.poolBuffer ≠ none → (f.release pool).1.payload = none) := by
  match f with
  | ⟨t, pl, none⟩ =>
    exact ⟨rfl, rfl, by show poolTotal pool ≤ poolTotal pool + 1; omega,
      fun h => absurd rfl h⟩
  | ⟨t, pl, some c⟩ =>
    refine ⟨rfl, rfl, ?_, fun _ => rfl⟩
    show poolTotal (poolPut pool (some c)) ≤ poolTotal pool + 1
    simp only [poolPut]
    split_ifs <;> simp [poolTotal] <;> omega

/-- Witness for C10 at a concrete pooled frame: releasing twice equals
releasing once and the payload is nil after the first release. -/
theorem frame_release_c10_witness :
    (GoFrame.release (GoFrame.release ⟨5, some [1], some sizeSmall⟩ ⟨0, 0, 0⟩).1
        (GoFrame.release ⟨5, some [1], some sizeSmall⟩ ⟨0, 0, 0⟩).2 =
      GoFrame.release ⟨5, some [1], some sizeSmall⟩ ⟨0, 0, 0⟩) ∧
    (GoFrame.release ⟨5, some [1], some sizeSmall⟩ ⟨0, 0, 0⟩).1.payload = none :=
  ⟨(frame_release_c10 ⟨5, some [1], some sizeSmall⟩ ⟨0, 0, 0⟩).1,
   (frame_release_c10 ⟨5, some [1], some sizeSmall⟩ ⟨0, 0, 0⟩).2.2.2 (by decide)⟩

/-! ### Registry: Register error cases (C5) -/

/-- Claim C5: with a non-empty requested subdomain, `Register` rejects a
syntactically invalid name with `ErrInvalidSubdomain`, a reserved name
with `ErrReservedSubdomain`, and an already-bound name with
`ErrSubdomainTaken`, leaving the registry exactly as it was in each
error case; otherwise it binds the name and returns it. -/
theorem register_errors_c5 (st : MState) (s : String) (gen : Nat → String) (now : Int)
    (hs : s ≠ "") :
    (validateSubdomain s = false →
      register st s gen now = (.error .invalidSubdomain, st)) ∧
    (validateSubdomain s = true → isReserved s = true →
      register st s gen now = (.error .reservedSubdomain, st)) ∧
    (validateSubdomain s = true → isReserved s = false → isUsed st s = true →
      register st s gen now = (.error .subdomainTaken, st)) ∧
    (validateSubdomain s = true → isReserved s = false → isUsed st s = false →
      register st s gen now = (.ok s, bindSubdomain st s now) ∧
      lookupTunnel (bindSubdomain st s now) s = some ⟨s, now, false⟩ ∧
      isUsed (bindSubdomain st s now) s = true) := by
  refine ⟨?_, ?_, ?_, ?_⟩
  · intro h1
    simp [register, hs, h1]
  · intro h1 h2
    simp [register, hs, h1, h2]
  · intro h1 h2 h3
    simp [register, hs, h1, h2, h3]
  · intro h1 h2 h3
    refine ⟨by simp [register, hs, h1, h2, h3], ?_, ?_⟩
    · simp [lookupTunnel, bindSubdomain]
    · simp [isUsed, bindSubdomain]

def takenState : MState :=
  ⟨[("myapp", ⟨"myapp", 0, false⟩)], ["myapp"]⟩

/-- Witness for C5 at concrete inputs: "ab" is invalid, "api" is
reserved, "myapp" is taken in `takenState`, and "newapp" registers. -/
theorem register_errors_c5_witness :
    register takenState "ab" (fun _ => "x") 0 = (.error .invalidSubdomain, takenState) ∧
    register takenState "api" (fun _ => "x") 0 = (.error .reservedSubdomain, takenState) ∧
    register takenState "myapp" (fun _ => "x") 0 = (.error .subdomainTaken, takenState) ∧
    (register takenState "newapp" (fun _ => "x") 0).1 = .ok "newapp" :=
  ⟨(register_errors_c5 takenState "ab" (fun _ => "x") 0 (by decide)).1 (by decide),
   (register_errors_c5 takenState "api" (fun _ => "x") 0 (by decide)).2.1
     (by decide) (by decide),
   (register_errors_c5 takenState "myapp" (fun _ => "x") 0 (by decide)).2.2.1
     (by decide) (by decide) (by decide),
   by rw [((register_errors_c5 takenState "newapp" (fun _ => "x") 0 (by decide)).2.2.2
     (by decide) (by decide) (by decide)).1]⟩

/-! ### Registry: auto-allocation (C2) -/

lemma genLoop_spec (st : MState) (gen : Nat → String) (i fuel : Nat) :
    genLoop st gen i fuel = gen (i + fuel) ∨
      (isUsed st (genLoop st gen i fuel) = false ∧
        isReserved (genLoop st gen i fuel) = false) := by
  induction fuel generalizing i with
  | zero => left; rfl
  | succ n ih =>
    simp only [genLoop]
    by_cases hacc : (!isUsed st (gen i) && !isReserved (gen i)) = true
    · rw [if_pos hacc]
      right
      simp only [Bool.and_eq_true, Bool.not_eq_true'] at hacc
      exact hacc
    · rw [if_neg hacc]
      rcases ih (i + 1) with h | h
      · left
        rw [h]
        congr 1
        omega
      · right
        exact h

/-- Every reserved label is at most 7 characters long. -/
lemma reserved_length_le (s : String) (h : isReserved s = true) : s.length ≤ 7 := by
  simp only [isReserved, reservedList, List.contains, List.elem_eq_mem,
    List.mem_cons, List.not_mem_nil, or_false, decide_eq_true_eq] at h
  rcases h with h | h | h | h | h | h | h | h | h | h | h | h | h <;> subst h <;> decide

/-- Claim C2 (amended): an auto-registration returns
`generateUniqueSubdomain` and binds it; the assigned subdomain is never
reserved (the length-8 fallback cannot collide with the at-most-7-char
reserved labels); and it is checked to be distinct from every bound
subdomain only when one of the 10 length-6 attempts is accepted — the
length-8 fallback is returned without a uniqueness check, so it may
equal a bound subdomain. -/
theorem subdomain_alloc_c2 (st : MState) (gen : Nat → String) (now : Int)
    (h8 : (gen 10).length = 8) :
    (register st "" gen now =
      (.ok (generateUniqueSubdomain st gen),
        bindSubdomain st (generateUniqueSubdomain st gen) now)) ∧
    isReserved (generateUniqueSubdomain st gen) = false ∧
    (generateUniqueSubdomain st gen = gen 10 ∨
      isUsed st (generateUniqueSubdomain st gen) = false) := by
  have hspec := genLoop_spec st gen 0 10
  have hfb : (0 : Nat) + 10 = 10 := rfl
  rw [hfb] at hspec
  refine ⟨by simp [register, generateUniqueSubdomain], ?_, ?_⟩
  · rcases hspec with h | h
    · unfold generateUniqueSubdomain at *
      rw [h]
      cases hr : isReserved (gen 10) with
      | false => rfl
      | true =>
        have := reserved_length_le (gen 10) hr
        omega
    · exact h.2
  · rcases hspec with h | h
    · left; exact h
    · right; exact h.1

/-- A registry already holding the labels the generator will draw. -/
def collideState : MState :=
  ⟨[("aaaaaa", ⟨"aaaaaa", 0, false⟩), ("aaaaaaaa", ⟨"aaaaaaaa", 0, false⟩)],
   ["aaaaaa", "aaaaaaaa"]⟩

/-- A generator stream whose 10 length-6 attempts all collide and whose
length-8 fallback equals an already-bound subdomain. -/
def collideGen : Nat → String := fun i => if i < 10 then "aaaaaa" else "aaaaaaaa"

/-- Claim C2 counterexample: with every length-6 attempt colliding, the
auto-registration assigns the length-8 fallback "aaaaaaaa" even though
that subdomain is already bound in the registry — the assigned subdomain
is not distinct from every currently bound subdomain. -/
theorem subdomain_alloc_c2_counterexample :
    (register collideState "" collideGen 0).1 = .ok "aaaaaaaa" ∧
    isUsed collideState "aaaaaaaa" = true ∧
    lookupTunnel collideState "aaaaaaaa" =
      some ⟨"aaaaaaaa", 0, false⟩ := by
  exact ⟨rfl, by decide, by decide⟩

/-- Witness for C2 (amended) at a concrete registry and generator. -/
theorem subdomain_alloc_c2_witness :
    isReserved (generateUniqueSubdomain takenState collideGen) = false :=
  (subdomain_alloc_c2 takenState collideGen 0 (by decide)).2.1

/-! ### Registry: idle eviction (C6) -/

lemma length_filter_partition {α : Type} (l : List α) (p : α → Bool) :
    (l.filter p).length + (l.filter (fun a => !p a)).length = l.length := by
  induction l with
  | nil => rfl
  | cons a tl ih =>
    simp only [List.filter_cons]
    by_cases h : p a = true
    · rw [if_pos h, if_neg (by simp [h])]
      simp only [List.length_cons]
      omega
    · rw [if_neg h, if_pos (by simp [Bool.not_eq_true'] at h ⊢; exact h)]
      simp only [List.length_cons]
      omega

lemma find?_filter_of_keep {α : Type} (l : List α) (pred keep : α → Bool) (q : α)
    (h : l.find? pred = some q) (hq : keep q = true) :
    (l.filter keep).find? pred = some q := by
  induction l with
  | nil => simp at h
  | cons a tl ih =>
    by_cases hp : pred a = true
    · rw [List.find?_cons_of_pos _ hp] at h
      injection h with h'
      subst h'
      rw [List.filter_cons, if_pos hq]
      exact List.find?_cons_of_pos _ hp
    · rw [List.find?_cons_of_neg _ hp] at h
      rw [List.filter_cons]
      by_cases hk : keep a = true
      · rw [if_pos hk, List.find?_cons_of_neg _ hp]
        exact ih h
      · rw [if_neg hk]
        exact ih h

lemma find?_filter_of_drop (l : List (String × Conn)) (s : String) (q : String × Conn)
    (keep : String × Conn → Bool) (hnd : (l.map Prod.fst).Nodup)
    (h : l.find? (fun p => p.1 == s) = some q) (hq : keep q = false) :
    (l.filter keep).find? (fun p => p.1 == s) = none := by
  induction l with
  | nil => simp at h
  | cons a tl ih =>
    rw [List.map_cons, List.nodup_cons] at hnd
    by_cases hp : (a.1 == s) = true
    · have hstep : List.find? (fun p => p.1 == s) (a :: tl) = some a :=
        List.find?_cons_of_pos tl hp
      rw [hstep] at h
      injection h with h'
      subst h'
      rw [List.filter_cons, if_neg (by simp [hq])]
      rw [List.find?_eq_none]
      intro x hx hpx
      have hxtl := List.mem_of_mem_filter hx
      have hmem : x.1 ∈ tl.map Prod.fst := List.mem_map_of_mem _ hxtl
      have heqx : x.1 = s := by simpa using hpx
      have heqa : a.1 = s := by simpa using hp
      rw [heqx, ← heqa] at hmem
      exact hnd.1 hmem
    · have hstep : List.find? (fun p => p.1 == s) (a :: tl)
          = List.find? (fun p => p.1 == s) tl :=
        List.find?_cons_of_neg tl hp
      rw [hstep] at h
      rw [List.filter_cons]
      by_cases hk : keep a = true
      · have hstep2 : List.find? (fun p => p.1 == s) (a :: List.filter keep tl)
            = List.find? (fun p => p.1 == s) (List.filter keep tl) :=
          List.find?_cons_of_neg _ hp
        rw [if_pos hk, hstep2]
        exact ih hnd.2 h
      · rw [if_neg hk]
        exact ih hnd.2 h

lemma contains_filter_not (us names : List String) (s : String)
    (h : names.contains s = true) :
    (us.filter (fun x => !names.contains x)).contains s = false := by
  rw [Bool.eq_false_iff]
  intro hc
  simp only [List.contains, List.elem_eq_mem, decide_eq_true_eq] at hc
  rw [List.mem_filter] at hc
  simp only [List.contains, List.elem_eq_mem, decide_eq_true_eq] at h
  simp [h] at hc

/-- Claim C6: `CleanupStale` removes exactly the connections whose
elapsed time since `last_active` reaches the timeout — each such
subdomain disappears from both the tunnel map and the used set — leaves
every still-alive connection bound as before, marks every removed
connection closed, and returns the number removed (state size shrinks by
exactly the count). -/
theorem cleanup_stale_c6 (st : MState) (now timeout : Int) (s : String)
    (hnd : (st.tunnels.map Prod.fst).Nodup) :
    ((cleanupStale st now timeout).state.tunnels.length
        + (cleanupStale st now timeout).count = st.tunnels.length) ∧
    ((cleanupStale st now timeout).count = (cleanupStale st now timeout).removed.length) ∧
    (∀ c, lookupTunnel st s = some c → isAlive now c.lastActive timeout = false →
      lookupTunnel (cleanupStale st now timeout).state s = none ∧
      isUsed (cleanupStale st now timeout).state s = false) ∧
    (∀ c, lookupTunnel st s = some c → isAlive now c.lastActive timeout = true →
      lookupTunnel (cleanupStale st now timeout).state s = some c) ∧
    (∀ q ∈ (cleanupStale st now timeout).removed,
      q.2.closed = true ∧ isAlive now q.2.lastActive timeout = false) := by
  refine ⟨?_, ?_, ?_, ?_, ?_⟩
  · show (st.tunnels.filter _).length + (_ : List String).length = _
    rw [List.length_map]
    exact length_filter_partition st.tunnels (fun p => isAlive now p.2.lastActive timeout)
  · simp [cleanupStale]
  · intro c hc hstale
    unfold lookupTunnel at hc
    rcases hfind : st.tunnels.find? (fun p => p.1 == s) with _ | q
    · rw [hfind] at hc
      exact Option.noConfusion hc
    · rw [hfind] at hc
      rw [Option.map_some'] at hc
      injection hc with hc
      constructor
      · show ((st.tunnels.filter _).find? _).map Prod.snd = none
        rw [find?_filter_of_drop st.tunnels s q _ hnd hfind (by rw [hc]; exact hstale)]
        rfl
      · show (st.used.filter _).contains s = false
        apply contains_filter_not
        have hqmem : q ∈ st.tunnels := List.mem_of_find?_eq_some hfind
        have hqstale : (!isAlive now q.2.lastActive timeout) = true := by
          rw [hc]
          simp [hstale]
        have : q ∈ st.tunnels.filter (fun p => !isAlive now p.2.lastActive timeout) :=
          List.mem_filter.mpr ⟨hqmem, hqstale⟩
        have : q.1 ∈ (st.tunnels.filter
            (fun p => !isAlive now p.2.lastActive timeout)).map Prod.fst :=
          List.mem_map_of_mem _ this
        have hq1 : q.1 = s := by
          have := List.find?_some hfind
          simpa using this
        simp only [List.contains, List.elem_eq_mem, decide_eq_true_eq]
        rw [← hq1]
        exact this
  · intro c hc halive
    unfold lookupTunnel at hc
    rcases hfind : st.tunnels.find? (fun p => p.1 == s) with _ | q
    · rw [hfind] at hc
      exact Option.noConfusion hc
    · rw [hfind] at hc
      rw [Option.map_some'] at hc
      injection hc with hc
      show ((st.tunnels.filter _).find? _).map Prod.snd = some c
      rw [find?_filter_of_keep st.tunnels _ _ q hfind (by rw [hc]; exact halive)]
      rw [Option.map_some', hc]
  · intro q hq
    simp only [cleanupStale, List.mem_map] at hq
    rcases hq with ⟨p, hp, hpq⟩
    rw [List.mem_filter] at hp
    subst hpq
    refine ⟨rfl, ?_⟩
    have := hp.2
    simpa using this

def staleState : MState :=
  ⟨[("abc123", ⟨"abc123", 0, false⟩), ("def456", ⟨"def456", 90, false⟩)],
   ["abc123", "def456"]⟩

/-- Witness for C6 at a concrete registry: with `now = 100` and
`timeout = 50`, the connection idle for 100 is evicted from both maps
and the one idle for 10 survives untouched. -/
theorem cleanup_stale_c6_witness :
    lookupTunnel (cleanupStale staleState 100 50).state "abc123" = none ∧
    isUsed (cleanupStale staleState 100 50).state "abc123" = false ∧
    lookupTunnel (cleanupStale staleState 100 50).state "def456" =
      some ⟨"def456", 90, false⟩ ∧
    (cleanupStale staleState 100 50).state.tunnels.length
      + (cleanupStale staleState 100 50).count = staleState.tunnels.length :=
  ⟨((cleanup_stale_c6 staleState 100 50 "abc123" (by decide)).2.2.1
      ⟨"abc123", 0, false⟩ (by decide) (by decide)).1,
   ((cleanup_stale_c6 staleState 100 50 "abc123" (by decide)).2.2.1
      ⟨"abc123", 0, false⟩ (by decide) (by decide)).2,
   (cleanup_stale_c6 staleState 100 50 "def456" (by decide)).2.2.2.1
      ⟨"def456", 90, false⟩ (by decide) (by decide),
   (cleanup_stale_c6 staleState 100 50 "def456" (by decide)).1⟩

/-! ### Writer backpressure (C3) -/

def fullClientWriter : CWState := ⟨false, [(3, [])], 1, false⟩

/-- Claim C3 counterexample: submitting to the open client-side writer
whose queue is full does not return a 'full' indication — it serializes
the frame directly to the transport and reports the direct write's
success, delivering the frame. -/
theorem writer_backpressure_c3_counterexample :
    clientWriteFrame fullClientWriter (5, [1]) =
      (fullClientWriter, .direct (none, [0, 0, 0, 1, 5, 1])) := by
  decide

/-- Claim C3 (amended): no writer returns a 'full' indication.  When the
outbound queue is full and the writer is open, the client-side writer
falls back to serializing the frame directly to the transport and
returns that write's result, and the server-side writer's submission
blocks until queue space or closure. -/
theorem writer_backpressure_c3 (w : CWState) (sw : SWState) (fr : Nat × List Nat)
    (hw : w.closed = false) (hfull : w.cap ≤ w.queue.length) (hd : w.doneClosed = false)
    (hsw : sw.closed = false) (hsfull : sw.cap ≤ sw.queue.length)
    (hsd : sw.doneClosed = false) :
    clientWriteFrame w fr = (w, .direct (writeFrame fr.1 fr.2)) ∧
    serverWriteFrame sw fr = (sw, .blocked) := by
  constructor
  · unfold clientWriteFrame
    rw [if_neg (by simp [hw]), if_neg (by omega), if_neg (by simp [hd])]
  · unfold serverWriteFrame
    rw [if_neg (by simp [hsw]), if_neg (by omega), if_neg (by simp [hsd])]

/-- Witness for C3 (amended) at concrete full-queue writers. -/
theorem writer_backpressure_c3_witness :
    clientWriteFrame ⟨false, [(1, [2])], 1, false⟩ (6, []) =
      (⟨false, [(1, [2])], 1, false⟩, .direct (writeFrame 6 [])) ∧
    serverWriteFrame ⟨false, none, false, false, 0, [(1, [2])], 1, false⟩ (6, []) =
      (⟨false, none, false, false, 0, [(1, [2])], 1, false⟩, .blocked) :=
  writer_backpressure_c3 ⟨false, [(1, [2])], 1, false⟩
    ⟨false, none, false, false, 0, [(1, [2])], 1, false⟩ (6, [])
    (by decide) (by decide) (by decide) (by decide) (by decide) (by decide)

/-! ### Writer error latching (C4) -/

lemma flushStep_latched (w : SWState) (r : Option String) (h : w.errOnceUsed = true) :
    flushStep w r = w := by
  cases r with
  | none => rfl
  | some e => simp [flushStep, h]

lemma flushBatch_latched (w : SWState) (rs : List (Option String))
    (h : w.errOnceUsed = true) : flushBatch w rs = w := by
  induction rs generalizing w with
  | nil => rfl
  | cons r rest ih =>
    show List.foldl flushStep (flushStep w r) rest = w
    rw [flushStep_latched w r h]
    exact ih w h

/-- Claim C4: the first sink error during flushing is latched as the
writer's error, the writer transitions to closed, the registered error
callback runs exactly once even across further failing flushes, and
every later submission fails with that same first error. -/
theorem writer_error_latch_c4 (w : SWState) (rs : List (Option String)) (e : String)
    (h0 : w.errOnceUsed = false) (hcb : w.callbackSet = true) (hc0 : w.callbackCalls = 0)
    (he : firstSinkError rs = some e) :
    (flushBatch w rs).writeErr = some e ∧
    (flushBatch w rs).closed = true ∧
    (flushBatch w rs).errOnceUsed = true ∧
    (flushBatch w rs).callbackCalls = 1 ∧
    (∀ rs2, flushBatch (flushBatch w rs) rs2 = flushBatch w rs) ∧
    (∀ fr, serverWriteFrame (flushBatch w rs) fr = (flushBatch w rs, .errorResult e)) := by
  induction rs generalizing w with
  | nil => exact Option.noConfusion he
  | cons r rest ih =>
    cases r with
    | none =>
      rw [show flushBatch w (none :: rest) = flushBatch w rest from rfl]
      exact ih w h0 hcb hc0 he
    | some e2 =>
      have he2 : e2 = e := by
        unfold firstSinkError at he
        injection he
      subst he2
      have hw' : flushStep w (some e2) =
          { w with
            writeErr := some e2
            closed := true
            errOnceUsed := true
            callbackCalls := w.callbackCalls + (if w.callbackSet then 1 else 0) } := by
        simp [flushStep, h0]
      have hfold : flushBatch w (some e2 :: rest)
          = flushStep w (some e2) := by
        show List.foldl flushStep (flushStep w (some e2)) rest = _
        apply flushBatch_latched
        rw [hw']
      rw [hfold, hw']
      refine ⟨rfl, rfl, rfl, by simp [hcb, hc0], ?_, ?_⟩
      · intro rs2
        apply flushBatch_latched
        rfl
      · intro fr
        simp [serverWriteFrame]

/-- Witness for C4 at a concrete writer and sink-outcome sequence: the
first of two errors wins, the callback fires once, and a later
submission returns the first error. -/
theorem writer_error_latch_c4_witness :
    (flushBatch ⟨false, none, false, true, 0, [], 4, false⟩
        [none, some "broken pipe", some "later failure"]).writeErr = some "broken pipe" ∧
    (flushBatch ⟨false, none, false, true, 0, [], 4, false⟩
        [none, some "broken pipe", some "later failure"]).callbackCalls = 1 ∧
    serverWriteFrame (flushBatch ⟨false, none, false, true, 0, [], 4, false⟩
        [none, some "broken pipe", some "later failure"]) (5, [1]) =
      (flushBatch ⟨false, none, false, true, 0, [], 4, false⟩
        [none, some "broken pipe", some "later failure"], .errorResult "broken pipe") :=
  ⟨(writer_error_latch_c4 ⟨false, none, false, true, 0, [], 4, false⟩
      [none, some "broken pipe", some "later failure"] "broken pipe"
      rfl rfl rfl rfl).1,
   (writer_error_latch_c4 ⟨false, none, false, true, 0, [], 4, false⟩
      [none, some "broken pipe", some "later failure"] "broken pipe"
      rfl rfl rfl rfl).2.2.2.1,
   (writer_error_latch_c4 ⟨false, none, false, true, 0, [], 4, false⟩
      [none, some "broken pipe", some "later failure"] "broken pipe"
      rfl rfl rfl rfl).2.2.2.2.2 (5, [1])⟩

/-! ### Request IDs (C8) -/

lemma hexEncode_length (bs : List Nat) : (hexEncode bs).length = 2 * bs.length := by
  induction bs with
  | nil => rfl
  | cons b rest ih =>
    show (hexEncode rest).length + 1 + 1 = 2 * (rest.length + 1)
    omega

lemma hexDigit_isHex (n : Nat) (h : n < 16) : isHexLowerChar (hexDigit n) = true := by
  interval_cases n <;> decide

lemma hexEncode_chars (bs : List Nat) : ∀ c ∈ hexEncode bs, isHexLowerChar c = true := by
  induction bs with
  | nil => intro c hc; simp [hexEncode] at hc
  | cons b rest ih =>
    intro c hc
    rcases hc with _ | ⟨_, hc⟩
    · exact hexDigit_isHex _ (by omega)
    · rcases hc with _ | ⟨_, hc⟩
      · exact hexDigit_isHex _ (by omega)
      · exact ih c hc

/-- Claim C8 (amended): when the crypto read succeeds, `GenerateID`
yields exactly 32 lowercase hex characters; the fallback taken when the
read fails is still lowercase hex, but it is the hex encoding of the
timestamp string, so its length is twice that string's byte length (not
32). -/
theorem request_id_c8 (bs ts : List Nat) (h : bs.length = 16) :
    (generateID (some bs) ts).length = 32 ∧
    (∀ c ∈ generateID (some bs) ts, isHexLowerChar c = true) ∧
    (∀ c ∈ generateID none ts, isHexLowerChar c = true) ∧
    (generateID none ts).length = 2 * ts.length := by
  refine ⟨?_, ?_, ?_, ?_⟩
  · show (hexEncode bs).length = 32
    rw [hexEncode_length, h]
  · exact hexEncode_chars bs
  · exact hexEncode_chars ts
  · exact hexEncode_length ts

/-- The bytes of a realistic `time.Now().String()` value. -/
def fallbackTimeBytes : List Nat :=
  "2009-11-10 23:00:00 +0000 UTC".data.map Char.toNat

/-- Claim C8 counterexample: on the fallback path (crypto read failed)
with a realistic timestamp string, the generated ID has 58 characters,
not 32. -/
theorem request_id_c8_counterexample :
    ¬ (generateID none fallbackTimeBytes).length = 32 := by
  decide

/-- Witness for C8 (amended) at a concrete random outcome. -/
theorem request_id_c8_witness :
    (generateID (some (List.replicate 16 0)) []).length = 32 :=
  (request_id_c8 (List.replicate 16 0) [] (by decide)).1

/-! ### Unknown request-id drop (C9) -/

/-- Claim C9: delivering a response for a request id with no pending
entry changes nothing — the handler state (every entry and hence the
map's size) is exactly as before, nothing is delivered and nothing is
removed; the frame is simply dropped. -/
theorem unknown_request_drop_c9 (st : RHState) (id : String) (resp : Nat)
    (h : lookupEntry st id = none) :
    sendResponse st id resp = (st, .droppedUnknown) := by
  have hf : st.channels.find? (fun p => p.1 == id) = none := by
    unfold lookupEntry at h
    exact Option.map_eq_none'.mp h
  unfold sendResponse
  rw [hf]

/-- Witness for C9 at a concrete handler holding one unrelated entry. -/
theorem unknown_request_drop_c9_witness :
    sendResponse ⟨[("req1", ⟨none, 0⟩)]⟩ "req2" 7 =
      (⟨[("req1", ⟨none, 0⟩)]⟩, .droppedUnknown) :=
  unknown_request_drop_c9 ⟨[("req1", ⟨none, 0⟩)]⟩ "req2" 7 (by decide)

end Drip
